import Mathlib

/-!
Shallow embedding of the ku-research service (src/ku-research/main.go) and
verification of its specification claims.

The embedding follows the Go source directly:
* `ResearchPaper`, `WorkspaceUser` mirror the struct definitions;
* `hasAccess`, `filterAccessiblePapers`, `generateID` mirror the functions
  of the same names (the package-level slices `workspaceUsers` and
  `siteUsers` read by `hasAccess` become explicit parameters);
* `addPaper` mirrors the `/add-paper` handler body (validation, ID
  assignment, append), `getResearch` mirrors the `/get-research` handler;
* the registration retry loop in `main` becomes `handshake`, driven by an
  abstract sequence of directory responses;
* the two-phase concurrent insert (ID generation under one lock
  acquisition, append under a later one) becomes the small-step system
  `cstep`/`crun` over explicit thread interleavings.
-/

namespace KuResearch

/-- Mirrors the Go struct `ResearchPaper` (src/ku-research/main.go:14-31).
Go `int` fields are embedded as `Int`; `omitempty` fields keep their Go
zero value (`""` / `0`) when absent. -/
structure ResearchPaper where
  ID              : String
  Title           : String
  Authors         : String
  Abstract        : String
  CoverImage      : String
  PublishedYear   : Int
  Field           : String
  Classifications : List String
  DOI             : String
  Journal         : String
  UserID          : Int
  IsPublic        : Bool
  PublicOption    : String
  WorkspaceSiteID : Int
  deriving Repr, DecidableEq

/-- Mirrors the Go struct `WorkspaceUser` (src/ku-research/main.go:33-36). -/
structure WorkspaceUser where
  WorkspaceID : Int
  UserID      : Int
  deriving Repr, DecidableEq

/-- Mirrors the `site` branch of `hasAccess`
(src/ku-research/main.go:194-199): a linear scan over `siteUsers` that
returns true at the first element equal to `userID`, false at the end. -/
def siteScan : List Int → Int → Bool
  | [], _ => false
  | siteUserID :: rest, userID =>
    if siteUserID == userID then true else siteScan rest userID

/-- Mirrors the `workspace` branch of `hasAccess`
(src/ku-research/main.go:203-208): a linear scan over `workspaceUsers`
that returns true at the first pair matching both the workspace ID and
the user ID, false at the end. -/
def workspaceScan : List WorkspaceUser → Int → Int → Bool
  | [], _, _ => false
  | workspaceUser :: rest, workspaceSiteID, userID =>
    if workspaceUser.WorkspaceID == workspaceSiteID && workspaceUser.UserID == userID then
      true
    else
      workspaceScan rest workspaceSiteID userID

/-- Mirrors `hasAccess` (src/ku-research/main.go:180-212).  The Go code
reads the package-level slices `workspaceUsers` and `siteUsers`; here they
are passed explicitly. -/
def hasAccess (workspaceUsers : List WorkspaceUser) (siteUsers : List Int)
    (paper : ResearchPaper) (userID : Int) : Bool :=
  if paper.UserID == userID then
    true
  else if !paper.IsPublic then
    false
  else if paper.PublicOption == "everyone" then
    true
  else if paper.PublicOption == "site" then
    siteScan siteUsers userID
  else if paper.PublicOption == "workspace" then
    workspaceScan workspaceUsers paper.WorkspaceSiteID userID
  else
    false

/-- The decision procedure exactly as the specification states it
(spec.md §4.1, rules 1-6, first match wins), with the two membership
checks phrased as set/relation membership rather than as the source's
linear scans.  Used as the comparison point for claim C1. -/
def canAccessSpec (workspaceUsers : List WorkspaceUser) (siteUsers : List Int)
    (paper : ResearchPaper) (userID : Int) : Bool :=
  if paper.UserID = userID then true
  else if paper.IsPublic = false then false
  else if paper.PublicOption = "everyone" then true
  else if paper.PublicOption = "site" then decide (userID ∈ siteUsers)
  else if paper.PublicOption = "workspace" then
    decide (∃ m ∈ workspaceUsers, m.WorkspaceID = paper.WorkspaceSiteID ∧ m.UserID = userID)
  else false

theorem siteScan_eq_mem (siteUsers : List Int) (userID : Int) :
    siteScan siteUsers userID = decide (userID ∈ siteUsers) := by
  induction siteUsers with
  | nil => simp [siteScan]
  | cons s rest ih =>
    by_cases h : s = userID
    · simp [siteScan, h]
    · simp [siteScan, h, ih, Ne.symm h]

theorem workspaceScan_eq_mem (workspaceUsers : List WorkspaceUser)
    (workspaceSiteID userID : Int) :
    workspaceScan workspaceUsers workspaceSiteID userID =
      decide (∃ m ∈ workspaceUsers, m.WorkspaceID = workspaceSiteID ∧ m.UserID = userID) := by
  induction workspaceUsers with
  | nil => simp [workspaceScan]
  | cons w rest ih =>
    by_cases h1 : w.WorkspaceID = workspaceSiteID
    · by_cases h2 : w.UserID = userID
      · simp [workspaceScan, h1, h2]
      · simp [workspaceScan, h1, h2, ih]
    · simp [workspaceScan, h1, ih]

/-- Mirrors `filterAccessiblePapers` (src/ku-research/main.go:168-178):
starts from an empty slice and appends each paper for which `hasAccess`
holds, walking the input left to right, exactly as the Go range loop. -/
def filterLoop (workspaceUsers : List WorkspaceUser) (siteUsers : List Int)
    (userID : Int) (accessiblePapers : List ResearchPaper) :
    List ResearchPaper → List ResearchPaper
  | [] => accessiblePapers
  | paper :: rest =>
    if hasAccess workspaceUsers siteUsers paper userID then
      filterLoop workspaceUsers siteUsers userID (accessiblePapers ++ [paper]) rest
    else
      filterLoop workspaceUsers siteUsers userID accessiblePapers rest

/-- Entry point of `filterAccessiblePapers`: the loop above run with the
empty accumulator, as in the Go function. -/
def filterAccessiblePapers (workspaceUsers : List WorkspaceUser) (siteUsers : List Int)
    (allPapers : List ResearchPaper) (userID : Int) : List ResearchPaper :=
  filterLoop workspaceUsers siteUsers userID [] allPapers

theorem filterLoop_eq_append_filter (workspaceUsers : List WorkspaceUser)
    (siteUsers : List Int) (userID : Int) (acc allPapers : List ResearchPaper) :
    filterLoop workspaceUsers siteUsers userID acc allPapers =
      acc ++ allPapers.filter (fun paper => hasAccess workspaceUsers siteUsers paper userID) := by
  induction allPapers generalizing acc with
  | nil => simp [filterLoop]
  | cons paper rest ih =>
    by_cases h : hasAccess workspaceUsers siteUsers paper userID
    · simp [filterLoop, h, ih, List.filter_cons]
    · simp [filterLoop, h, ih, List.filter_cons]

/-- Mirrors `generateID` (src/ku-research/main.go:215-219): the new ID is
the decimal rendering of the current number of stored papers plus one.
In the Go code the length is read under the store mutex; the lock is
released before the caller appends. -/
def generateID (papers : List ResearchPaper) : String :=
  toString (papers.length + 1)

/-- Mirrors the body of the `/add-paper` handler after body parsing
(src/ku-research/main.go:108-129): validate the required descriptive
fields, generate an ID when the caller omitted one, append to the store.
The result pairs the store state after the call with either the stored
document or the error message; on error the state is returned untouched,
as the handler returns before any mutation. -/
def addPaper (papers : List ResearchPaper) (newPaper : ResearchPaper) :
    List ResearchPaper × Except String ResearchPaper :=
  if newPaper.Title == "" || newPaper.Authors == "" || newPaper.Abstract == "" then
    (papers, Except.error "Missing required fields")
  else
    let stored :=
      if newPaper.ID == "" then { newPaper with ID := generateID papers } else newPaper
    (papers ++ [stored], Except.ok stored)

/-- Mirrors the body of the `/get-research` handler
(src/ku-research/main.go:85-96): under the store mutex it filters the
current papers for the requesting user and leaves the store as it was.
The result pairs the response with the store state after the call. -/
def getResearch (workspaceUsers : List WorkspaceUser) (siteUsers : List Int)
    (userID : Int) (papers : List ResearchPaper) :
    List ResearchPaper × List ResearchPaper :=
  (filterAccessiblePapers workspaceUsers siteUsers papers userID, papers)

/-- Mirrors `getSamplePapers` (src/ku-research/main.go:221-243): the
store contents at process start. -/
def samplePapers : List ResearchPaper :=
  [{ ID := "1",
     Title := "Quantum Computing: Recent Advances and Future Directions",
     Authors := "Dr. Richard Feynman, Dr. Lisa Chen",
     Abstract := "This paper reviews recent developments in quantum computing, focusing on quantum supremacy experiments and potential applications in cryptography, optimization, and simulation of quantum systems.",
     CoverImage := "https://images.unsplash.com/photo-1635070041078-e363dbe005cb?ixlib=rb-4.0.3&ixid=M3wxMjA3fDB8MHxwaG90by1wYWdlfHx8fGVufDB8fHx8fA%3D%3D&auto=format&fit=crop&w=2070&q=80",
     PublishedYear := 2023,
     Field := "Computer Science",
     Classifications := ["Quantum Computing", "Theoretical Physics", "Cryptography"],
     DOI := "10.1038/s41586-019-1666-5",
     Journal := "Nature Quantum Information",
     UserID := 1,
     IsPublic := true,
     PublicOption := "everyone",
     WorkspaceSiteID := 0 }]

/-- Mirrors `getSampleWorkspaceUsers` (src/ku-research/main.go:245-256). -/
def sampleWorkspaceUsers : List WorkspaceUser :=
  [⟨1, 2⟩, ⟨3, 2⟩, ⟨1, 3⟩, ⟨3, 3⟩, ⟨9, 3⟩, ⟨1, 4⟩, ⟨3, 4⟩, ⟨8, 4⟩]

/-- Mirrors `getSampleSiteUsers` (src/ku-research/main.go:258-260). -/
def sampleSiteUsers : List Int :=
  [1, 2, 3, 4]

/-- Observable events of the registration loop: a registration attempt
with its zero-based index, or a fixed wait of the given number of time
units (the Go code sleeps 2 seconds). -/
inductive HSEvent where
  | attempt (i : Nat)
  | wait (units : Nat)
  deriving Repr, DecidableEq

/-- Mirrors `maxRetries := 5` (src/ku-research/main.go:142). -/
def maxRetries : Nat := 5

/-- Mirrors the registration retry loop in `main`
(src/ku-research/main.go:144-163).  `responses i` tells whether the i-th
call to `sdk.Register` succeeds.  Each iteration records its attempt; on
success the loop breaks; on failure it waits 2 units before the next
iteration unless this was the last one.  The fuel argument is the number
of remaining loop iterations (`maxRetries` at entry), so the recursion
mirrors `for i := range maxRetries`. -/
def hsLoop (responses : Nat → Bool) : Nat → Nat → List HSEvent
  | _, 0 => []
  | i, fuel + 1 =>
    HSEvent.attempt i ::
      (if responses i then []
       else if i < maxRetries - 1 then HSEvent.wait 2 :: hsLoop responses (i + 1) fuel
       else hsLoop responses (i + 1) fuel)

/-- The full registration handshake: the retry loop started at attempt 0
with `maxRetries` iterations available. -/
def handshake (responses : Nat → Bool) : List HSEvent :=
  hsLoop responses 0 maxRetries

/-- Index of the first successful directory response within the attempt
budget, if any. -/
def firstSuccess (responses : Nat → Bool) : Option Nat :=
  (List.range maxRetries).find? (fun k => responses k)

/-- Number of attempts the specification prescribes: the index of the
first successful response plus one, capped at `maxRetries` when every
response fails. -/
def attemptsSpec (responses : Nat → Bool) : Nat :=
  match firstSuccess responses with
  | some k => k + 1
  | none => maxRetries

/-- The event trace the specification prescribes: attempts `0, 1, ...`
up to `attemptsSpec responses`, consecutive attempts separated by one
fixed 2-unit wait. -/
def handshakeSpec (responses : Nat → Bool) : List HSEvent :=
  List.intersperse (HSEvent.wait 2) ((List.range (attemptsSpec responses)).map HSEvent.attempt)

/-- Number of attempt events in a handshake trace. -/
def countAttempts (events : List HSEvent) : Nat :=
  (events.filter fun e => match e with
    | HSEvent.attempt _ => true
    | HSEvent.wait _ => false).length

/-- Per-thread progress of one in-flight `/add-paper` request operating
on the shared store: not yet started, rejected by validation, holding a
generated (or caller-supplied) ID while not yet appended, or finished.
The split between `generated` and `done` mirrors the two separate mutex
acquisitions in the Go handler: `generateID` locks, reads the length and
unlocks (src/ku-research/main.go:216-218), and only a later, separate
critical section appends (src/ku-research/main.go:121-123). -/
inductive InsertPhase where
  | start (payload : ResearchPaper)
  | rejected (payload : ResearchPaper)
  | generated (payload : ResearchPaper) (id : String)
  | done (stored : ResearchPaper)
  deriving Repr, DecidableEq

/-- Shared store plus the progress of each concurrent insert request. -/
structure ConcState where
  papers : List ResearchPaper
  threads : List InsertPhase
  deriving Repr, DecidableEq

/-- One atomic step of thread `t`: from `start`, run the (thread-local)
validation and, for an empty-ID payload, the locked `generateID` read;
from `generated`, the locked append of the prepared document.  Any other
phase (or an out-of-range thread) leaves the state unchanged. -/
def cstep (s : ConcState) (t : Nat) : ConcState :=
  match s.threads[t]? with
  | some (InsertPhase.start payload) =>
    if payload.Title == "" || payload.Authors == "" || payload.Abstract == "" then
      { s with threads := s.threads.set t (InsertPhase.rejected payload) }
    else if payload.ID == "" then
      { s with threads := s.threads.set t (InsertPhase.generated payload (generateID s.papers)) }
    else
      { s with threads := s.threads.set t (InsertPhase.generated payload payload.ID) }
  | some (InsertPhase.generated payload id) =>
    let stored := { payload with ID := id }
    { papers := s.papers ++ [stored], threads := s.threads.set t (InsertPhase.done stored) }
  | _ => s

/-- Run the concurrent system under an explicit interleaving: the
schedule lists which thread takes each successive atomic step. -/
def crun (s : ConcState) : List Nat → ConcState
  | [] => s
  | t :: rest => crun (cstep s t) rest

/-- IDs of the documents stored by the inserts that have finished. -/
def doneIds (s : ConcState) : List String :=
  s.threads.filterMap fun phase => match phase with
    | InsertPhase.done stored => some stored.ID
    | _ => none

/-- A well-formed insert payload used in concrete scenarios: all required
descriptive fields non-empty, no caller-supplied ID, not shared. -/
def basePaper : ResearchPaper :=
  { ID := "", Title := "Test Paper", Authors := "Test Author",
    Abstract := "Test abstract.", CoverImage := "", PublishedYear := 2024,
    Field := "Computer Science", Classifications := [], DOI := "",
    Journal := "", UserID := 1, IsPublic := false, PublicOption := "",
    WorkspaceSiteID := 0 }

/-- Claim C1: for every document, subject and membership index,
`hasAccess` equals the specified first-match-wins rule chain (owner
allow; unshared deny; everyone allow; site iff site membership;
workspace iff the (qualifier, subject) pair is a workspace membership;
everything else deny).  In particular the owner is always allowed, and a
shared document with an unrecognized or empty scope is denied to every
non-owner. -/
theorem hasAccess_matches_decision_rules (workspaceUsers : List WorkspaceUser)
    (siteUsers : List Int) (paper : ResearchPaper) (userID : Int) :
    hasAccess workspaceUsers siteUsers paper userID =
      canAccessSpec workspaceUsers siteUsers paper userID ∧
    (paper.UserID = userID → hasAccess workspaceUsers siteUsers paper userID = true) ∧
    (paper.UserID ≠ userID → paper.IsPublic = true → paper.PublicOption ≠ "everyone" →
      paper.PublicOption ≠ "site" → paper.PublicOption ≠ "workspace" →
      hasAccess workspaceUsers siteUsers paper userID = false) := by
  refine ⟨?_, ?_, ?_⟩
  · simp only [hasAccess, canAccessSpec, siteScan_eq_mem, workspaceScan_eq_mem,
      beq_iff_eq, Bool.not_eq_true', Bool.if_false_left, Bool.if_true_left]
  · intro h
    simp [hasAccess, h]
  · intro h1 h2 h3 h4 h5
    simp [hasAccess, h1, h2, h3, h4, h5]

/-- Witness for C1: a shared document with an empty scope tag is denied
to a concrete non-owner, obtained from the theorem with every hypothesis
discharged at that input. -/
theorem hasAccess_matches_decision_rules_witness :
    hasAccess [] []
      { basePaper with UserID := 1, IsPublic := true, PublicOption := "" } 2 = false :=
  (hasAccess_matches_decision_rules [] []
      { basePaper with UserID := 1, IsPublic := true, PublicOption := "" } 2).2.2
    (by decide) rfl (by decide) (by decide) (by decide)

/-- Claim C2: `filterAccessiblePapers` is the order-preserving filter of
the snapshot by the visibility predicate: it equals `List.filter` of
`hasAccess` over the stored sequence. -/
theorem filterAccessiblePapers_eq_filter (workspaceUsers : List WorkspaceUser)
    (siteUsers : List Int) (allPapers : List ResearchPaper) (userID : Int) :
    filterAccessiblePapers workspaceUsers siteUsers allPapers userID =
      allPapers.filter (fun paper => hasAccess workspaceUsers siteUsers paper userID) := by
  simp [filterAccessiblePapers, filterLoop_eq_append_filter]

/-- Claim C8: two documents that agree on owner, sharing flag, scope tag
and scope qualifier receive the same access decision for every subject
and membership index, whatever their descriptive fields. -/
theorem hasAccess_ignores_descriptive_fields (workspaceUsers : List WorkspaceUser)
    (siteUsers : List Int) (p q : ResearchPaper) (userID : Int)
    (hOwner : p.UserID = q.UserID) (hShared : p.IsPublic = q.IsPublic)
    (hScope : p.PublicOption = q.PublicOption)
    (hQual : p.WorkspaceSiteID = q.WorkspaceSiteID) :
    hasAccess workspaceUsers siteUsers p userID =
      hasAccess workspaceUsers siteUsers q userID := by
  simp [hasAccess, hOwner, hShared, hScope, hQual]

/-- Witness for C8: two concrete papers differing in title, authors,
abstract, year and journal but agreeing on the four visibility fields get
the same decision, via the theorem with its hypotheses discharged. -/
theorem hasAccess_ignores_descriptive_fields_witness :
    hasAccess sampleWorkspaceUsers sampleSiteUsers
      { basePaper with
        Title := "A", IsPublic := true, PublicOption := "workspace",
        WorkspaceSiteID := 3 } 2 =
    hasAccess sampleWorkspaceUsers sampleSiteUsers
      { basePaper with
        Title := "B", Authors := "Someone Else",
        Abstract := "Different.", PublishedYear := 1999, Journal := "Other",
        IsPublic := true, PublicOption := "workspace", WorkspaceSiteID := 3 } 2 :=
  hasAccess_ignores_descriptive_fields sampleWorkspaceUsers sampleSiteUsers
    _ _ 2 rfl rfl rfl rfl

/-- Claim C9: the query operation is deterministic and leaves the store
unchanged, so two successive `/get-research` calls with no intervening
inserts return the same ordered sequence. -/
theorem getResearch_idempotent (workspaceUsers : List WorkspaceUser)
    (siteUsers : List Int) (userID : Int) (papers : List ResearchPaper) :
    (getResearch workspaceUsers siteUsers userID
        (getResearch workspaceUsers siteUsers userID papers).2).1 =
      (getResearch workspaceUsers siteUsers userID papers).1 ∧
    (getResearch workspaceUsers siteUsers userID papers).2 = papers :=
  ⟨rfl, rfl⟩

/-- Claim C5: an insert payload whose title, authors or abstract is empty
is rejected with a validation error and the store is exactly as before
the call; no ID is assigned and no document is stored. -/
theorem addPaper_rejects_missing_fields (papers : List ResearchPaper)
    (newPaper : ResearchPaper)
    (h : newPaper.Title = "" ∨ newPaper.Authors = "" ∨ newPaper.Abstract = "") :
    addPaper papers newPaper = (papers, Except.error "Missing required fields") := by
  rcases h with h | h | h <;> simp [addPaper, h]

/-- Witness for C5: a concrete payload with an empty title is rejected
and the sample store is unchanged, via the theorem with its hypothesis
discharged. -/
theorem addPaper_rejects_missing_fields_witness :
    addPaper samplePapers { basePaper with Title := "" } =
      (samplePapers, Except.error "Missing required fields") :=
  addPaper_rejects_missing_fields samplePapers { basePaper with Title := "" }
    (Or.inl rfl)

/-- Claim C10: a successful insert appends the returned document at the
end of the stored sequence and changes nothing else: the new state is the
old sequence extended by exactly the stored document, so every previous
document keeps its position and the length grows by one. -/
theorem addPaper_appends_at_end (papers : List ResearchPaper)
    (newPaper : ResearchPaper) (hTitle : newPaper.Title ≠ "")
    (hAuthors : newPaper.Authors ≠ "") (hAbstract : newPaper.Abstract ≠ "") :
    ∃ stored, addPaper papers newPaper = (papers ++ [stored], Except.ok stored) ∧
      (addPaper papers newPaper).1.take papers.length = papers ∧
      (addPaper papers newPaper).1.length = papers.length + 1 := by
  refine ⟨if newPaper.ID == "" then { newPaper with ID := generateID papers }
    else newPaper, ?_, ?_, ?_⟩ <;>
    simp [addPaper, hTitle, hAuthors, hAbstract, List.take_left]

/-- Witness for C10: inserting a concrete valid payload into the sample
store appends it at the end, via the theorem with its hypotheses
discharged. -/
theorem addPaper_appends_at_end_witness :
    ∃ stored, addPaper samplePapers basePaper =
        (samplePapers ++ [stored], Except.ok stored) ∧
      (addPaper samplePapers basePaper).1.take samplePapers.length = samplePapers ∧
      (addPaper samplePapers basePaper).1.length = samplePapers.length + 1 :=
  addPaper_appends_at_end samplePapers basePaper (by decide) (by decide) (by decide)

/-- A shared workspace-scoped paper whose scope qualifier was never set:
the Go zero value of `WorkspaceSiteID` is 0, which is what an absent
JSON field deserializes to. -/
def absentQualifierPaper : ResearchPaper :=
  { basePaper with
    UserID := 1, IsPublic := true, PublicOption := "workspace",
    WorkspaceSiteID := 0 }

/-- Counterexample to C6 as stated: the claim quantifies over every
membership index, but a workspace-membership relation containing a pair
whose workspace ID is 0 grants access to a non-owner of a shared
workspace-scoped document with an absent (zero) qualifier, because Go
represents the absent qualifier by the zero value 0 and `hasAccess`
compares it against membership pairs like any other workspace ID. -/
theorem absent_qualifier_grants_zero_workspace_member :
    absentQualifierPaper.WorkspaceSiteID = 0 ∧
    absentQualifierPaper.UserID ≠ 2 ∧
    hasAccess [⟨0, 2⟩] [] absentQualifierPaper 2 = true := by
  refine ⟨rfl, by decide, ?_⟩
  simp [hasAccess, absentQualifierPaper, basePaper, workspaceScan]

/-- Claim C6 amended: a shared workspace-scoped document with an absent
(zero) qualifier is denied to every non-owner, for every membership
index in which no workspace-membership pair carries workspace ID 0 — in
particular for the membership index the program is seeded with. -/
theorem absent_workspace_qualifier_denies (workspaceUsers : List WorkspaceUser)
    (siteUsers : List Int) (paper : ResearchPaper) (userID : Int)
    (hOwner : paper.UserID ≠ userID) (hShared : paper.IsPublic = true)
    (hScope : paper.PublicOption = "workspace")
    (hAbsent : paper.WorkspaceSiteID = 0)
    (hNoZero : ∀ m ∈ workspaceUsers, m.WorkspaceID ≠ 0) :
    hasAccess workspaceUsers siteUsers paper userID = false := by
  have hws : workspaceScan workspaceUsers paper.WorkspaceSiteID userID = false := by
    rw [workspaceScan_eq_mem]
    simp only [decide_eq_false_iff_not]
    rintro ⟨m, hm, h0, _⟩
    exact hNoZero m hm (hAbsent ▸ h0)
  simp [hasAccess, hOwner, hShared, hScope, hws]

/-- Witness for the amended C6: under the program's seeded workspace
memberships (none of which name workspace 0), the concrete
absent-qualifier paper is denied to non-owner 2, via the theorem with
every hypothesis discharged. -/
theorem absent_workspace_qualifier_denies_witness :
    hasAccess sampleWorkspaceUsers sampleSiteUsers absentQualifierPaper 2 = false :=
  absent_workspace_qualifier_denies sampleWorkspaceUsers sampleSiteUsers
    absentQualifierPaper 2 (by decide) rfl rfl rfl (by decide)

/-- Claim C7: for every sequence of directory responses the registration
loop produces exactly the trace the specification prescribes: attempts
0, 1, ... up to the index of the first success plus one (5 attempts when
every response fails), consecutive attempts separated by one fixed
2-unit wait, and no attempt after the first success; consequently the
number of attempts equals `attemptsSpec`. -/
theorem handshake_matches_retry_spec (responses : Nat → Bool) :
    handshake responses = handshakeSpec responses ∧
    countAttempts (handshake responses) = attemptsSpec responses := by
  cases h0 : responses 0 <;> cases h1 : responses 1 <;> cases h2 : responses 2 <;>
    cases h3 : responses 3 <;> cases h4 : responses 4 <;>
    refine ⟨?_, ?_⟩ <;>
    simp [handshake, hsLoop, handshakeSpec, attemptsSpec, firstSuccess, countAttempts,
      maxRetries, List.range_succ, List.intersperse, h0, h1, h2, h3, h4]

/-- A valid insert payload carrying a caller-supplied ID "3"; the
`/add-paper` handler stores such payloads without any duplicate check. -/
def paperWithID3 : ResearchPaper :=
  { basePaper with ID := "3" }

/-- Claim C3 evaluated at a failing input: starting from the sample
store (one paper, ID "1"), a caller-supplied insert stores ID "3" (a
reachable state); the next empty-ID insert is assigned
`generateID = "3"` — the decimal of length + 1 — which already belongs
to a stored document.  The store-assigned ID is therefore not fresh. -/
theorem generated_id_collides_with_stored_id :
    addPaper samplePapers paperWithID3 =
      (samplePapers ++ [paperWithID3], Except.ok paperWithID3) ∧
    generateID (samplePapers ++ [paperWithID3]) = "3" ∧
    "3" ∈ (samplePapers ++ [paperWithID3]).map ResearchPaper.ID ∧
    addPaper (samplePapers ++ [paperWithID3]) basePaper =
      (samplePapers ++ [paperWithID3] ++ [{ basePaper with ID := "3" }],
        Except.ok { basePaper with ID := "3" }) := by
  refine ⟨rfl, rfl, by simp [paperWithID3], rfl⟩

/-- First concurrent insert payload: valid, empty ID. -/
def payloadA : ResearchPaper :=
  { basePaper with Title := "Paper A" }

/-- Second concurrent insert payload: valid, empty ID. -/
def payloadB : ResearchPaper :=
  { basePaper with Title := "Paper B" }

/-- Two concurrent `/add-paper` requests with empty-ID payloads, poised
over the sample store. -/
def raceInit : ConcState :=
  { papers := samplePapers,
    threads := [InsertPhase.start payloadA, InsertPhase.start payloadB] }

/-- The state after the interleaving that runs both ID generations
before either append: generate A, generate B, append A, append B. -/
def raceFinal : ConcState :=
  crun raceInit [0, 1, 0, 1]

/-- Claim C4 evaluated at a failing interleaving: because `generateID`
releases the store mutex before the handler re-acquires it to append,
both concurrent empty-ID inserts read length 1 and are assigned the same
ID "2", so the N assigned IDs are not pairwise distinct; no insert is
lost (the final store has initial size + 2), but the distinctness part
of the claim fails. -/
theorem concurrent_inserts_assign_duplicate_ids :
    doneIds raceFinal = ["2", "2"] ∧
    raceFinal.papers.length = samplePapers.length + 2 := by
  refine ⟨?_, ?_⟩ <;> rfl

end KuResearch
